import Mathlib

/-!
Verification of the crew-ai repository core contracts.

Part 1 models the MCP tool-call client
(chrome-extension/src/background/agent/mcp/client.ts): the mutable fields
of the MCPClient class become an explicit state record, the network side
effects (whether a connection attempt succeeds, what a tool call returns
or throws) become an environment record, and the try/catch structure of
callTool becomes an Except-valued body wrapped by a total handler.

Part 2 models the DeFi agent execute method (EXAMPLE_DEFI_AGENT.md) and
the Executor step loop (AGENT_ARCHITECTURE_GUIDE.md).
-/

/-- Result record returned by MCPClient.callTool: content string plus an
optional error message, mirroring the MCPToolResult interface of types.ts. -/
structure MCPToolResult where
  content : String
  error : Option String
deriving Repr, DecidableEq

/-- One item of the content array returned by the underlying SDK tool call:
a type tag and a text payload.  The source keeps the text of items whose
type tag is "text" and maps every other item to the empty string. -/
structure ContentItem where
  itemType : String
  text : String
deriving Repr, DecidableEq

/-- Text extraction performed by callTool on a successful SDK result:
map each item to its text when its type is "text" (else the empty string)
and join with newlines. -/
def extractContent (items : List ContentItem) : String :=
  String.intercalate "\n" (items.map fun i => if i.itemType = "text" then i.text else "")

/-- Tool arguments: a record of string keys to string values (the source
uses an arbitrary JSON record; only its identity matters here). -/
def MCPArgs : Type := List (String × String)

/-- State of one MCPClient instance: the client and transport fields
(null or allocated, carried as Option Unit since their internals live
behind the SDK) and the connected flag. -/
structure MCPState where
  client : Option Unit
  transport : Option Unit
  connected : Bool
deriving Repr, DecidableEq

/-- A freshly constructed MCPClient: all fields null, not connected. -/
def MCPState.init : MCPState := ⟨none, none, false⟩

/-- Environment for the MCP client: whether the SDK connect call succeeds,
and for each tool name and argument record either the content items the
SDK returns or the message of the exception it throws. -/
structure MCPEnv where
  connectOk : Bool
  toolOutcome : String → MCPArgs → Except String (List ContentItem)

/-- MCPClient.connect: early-return true when already connected; otherwise
allocate the transport and the client, then attempt the SDK connect.  On
success set connected and return true; on failure leave connected false and
return false (the allocated client and transport fields remain non-null,
exactly as in the source where the assignments precede the await). -/
def MCPClient.connect (env : MCPEnv) (s : MCPState) : MCPState × Bool :=
  if s.connected then (s, true)
  else
    if env.connectOk then
      ({ client := some (), transport := some (), connected := true }, true)
    else
      ({ client := some (), transport := some (), connected := false }, false)

/-- The try block of MCPClient.callTool, as an Except-valued computation:
throw when the client field is null, otherwise perform the SDK tool call
(which may itself throw) and extract the text content. -/
def MCPClient.callToolBody (env : MCPEnv) (s : MCPState) (name : String)
    (args : MCPArgs) : Except String MCPToolResult :=
  match s.client with
  | none => Except.error "MCP client not initialized"
  | some _ =>
    match env.toolOutcome name args with
    | Except.error e => Except.error e
    | Except.ok items => Except.ok { content := extractContent items, error := none }

/-- The catch handler of MCPClient.callTool: any thrown message becomes a
result with empty content and the message in the error field. -/
def MCPClient.callToolRun (env : MCPEnv) (s : MCPState) (name : String)
    (args : MCPArgs) : MCPToolResult :=
  match MCPClient.callToolBody env s name args with
  | Except.ok r => r
  | Except.error e => { content := "", error := some e }

/-- MCPClient.callTool: when not connected, first attempt to connect and on
failure return the fixed unavailability result without touching the tool;
otherwise run the guarded tool call under the catch handler.  Returns the
updated state together with the result. -/
def MCPClient.callTool (env : MCPEnv) (s : MCPState) (name : String)
    (args : MCPArgs) : MCPState × MCPToolResult :=
  if s.connected then
    (s, MCPClient.callToolRun env s name args)
  else
    match MCPClient.connect env s with
    | (s1, true) => (s1, MCPClient.callToolRun env s1 name args)
    | (s1, false) => (s1, { content := "", error := some "MCP server not available" })

/-- MCPClient.disconnect: when the client field is non-null, close it and
null out all fields; otherwise leave the state unchanged. -/
def MCPClient.disconnect (s : MCPState) : MCPState :=
  match s.client with
  | none => s
  | some _ => ⟨none, none, false⟩

/-- Module-level singleton state for getMCPClient: the cached instance
(carried as the identifier of the allocation) and a count of MCPClient
allocations performed so far. -/
structure MCPGlobal where
  mcpClientInstance : Option Nat
  allocated : Nat
deriving Repr, DecidableEq

/-- Initial module state: no instance cached, nothing allocated. -/
def MCPGlobal.init : MCPGlobal := ⟨none, 0⟩

/-- getMCPClient: allocate a new MCPClient and cache it when the cache is
empty, otherwise return the cached instance unchanged. -/
def getMCPClient (g : MCPGlobal) : MCPGlobal × Nat :=
  match g.mcpClientInstance with
  | some i => (g, i)
  | none => ({ mcpClientInstance := some g.allocated, allocated := g.allocated + 1 }, g.allocated)

/-- Invariant of the MCPClient state: whenever the connected flag is true
the client field is non-null. -/
def MCPInv (s : MCPState) : Prop := s.connected = true → s.client.isSome = true

/-- Case characterisation of callTool used by several results below: the
call always yields a plain MCPToolResult, which is either the successful
extraction with no error, the fixed unavailability result, the fixed
uninitialised-client result, or the thrown tool-call message with empty
content. -/
theorem MCPClient.callTool_cases (env : MCPEnv) (s : MCPState) (name : String)
    (args : MCPArgs) :
    (∃ items, env.toolOutcome name args = Except.ok items ∧
      (MCPClient.callTool env s name args).2 =
        { content := extractContent items, error := none }) ∨
    (MCPClient.callTool env s name args).2 =
      { content := "", error := some "MCP server not available" } ∨
    (MCPClient.callTool env s name args).2 =
      { content := "", error := some "MCP client not initialized" } ∨
    (∃ e, env.toolOutcome name args = Except.error e ∧
      (MCPClient.callTool env s name args).2 = { content := "", error := some e }) := by
  unfold MCPClient.callTool MCPClient.connect MCPClient.callToolRun MCPClient.callToolBody
  by_cases hc : s.connected
  · simp only [hc, if_true]
    cases hcl : s.client with
    | none => simp
    | some u =>
      cases hto : env.toolOutcome name args with
      | error e => right; right; right; exact ⟨e, rfl, by simp⟩
      | ok items => left; exact ⟨items, rfl, by simp⟩
  · simp only [hc, if_false]
    by_cases hok : env.connectOk
    · simp only [hok, if_true]
      cases hto : env.toolOutcome name args with
      | error e => right; right; right; exact ⟨e, rfl, by simp⟩
      | ok items => left; exact ⟨items, rfl, by simp⟩
    · simp [hok]

/-- Concrete tool behaviour that always succeeds with one text item. -/
def toolOkFn : String → MCPArgs → Except String (List ContentItem) :=
  fun _ _ => Except.ok [⟨"text", "hello"⟩]

/-- Concrete tool behaviour that always throws. -/
def toolErrFn : String → MCPArgs → Except String (List ContentItem) :=
  fun _ _ => Except.error "boom"

/-- A connected client state with allocated client and transport fields. -/
def mcpConnectedState : MCPState := ⟨some (), some (), true⟩

/-- C1: for every environment, state, tool name and argument record,
MCPClient.callTool resolves to a plain MCPToolResult: either the tool call
succeeded and the result carries the extracted content with no error, or
some internal failure occurred and the result carries empty content with
the failure message in the error field — no failure escapes the call. -/
theorem mcp_callTool_total_graceful (env : MCPEnv) (s : MCPState) (name : String)
    (args : MCPArgs) :
    ((MCPClient.callTool env s name args).2.error = none ∧
      ∃ items, env.toolOutcome name args = Except.ok items ∧
        (MCPClient.callTool env s name args).2.content = extractContent items) ∨
    ((MCPClient.callTool env s name args).2.content = "" ∧
      ∃ e, (MCPClient.callTool env s name args).2.error = some e) := by
  rcases MCPClient.callTool_cases env s name args with
    ⟨items, hi, hr⟩ | hr | hr | ⟨e, he, hr⟩
  · left; rw [hr]; exact ⟨rfl, items, hi, rfl⟩
  · right; rw [hr]; exact ⟨rfl, _, rfl⟩
  · right; rw [hr]; exact ⟨rfl, _, rfl⟩
  · right; rw [hr]; exact ⟨rfl, _, rfl⟩

/-- C7: when the client is not connected and the connection attempt fails,
callTool returns the fixed unavailability result, the resulting state still
has the connected flag false (the failure is absorbed, not raised), and the
outcome is independent of the tool behaviour — the tool call is never
attempted. -/
theorem mcp_callTool_unavailable (s : MCPState) (name : String) (args : MCPArgs)
    (f g : String → MCPArgs → Except String (List ContentItem))
    (h : s.connected = false) :
    MCPClient.callTool ⟨false, f⟩ s name args =
      (⟨some (), some (), false⟩, ⟨"", some "MCP server not available"⟩) ∧
    MCPClient.callTool ⟨false, f⟩ s name args =
      MCPClient.callTool ⟨false, g⟩ s name args := by
  unfold MCPClient.callTool MCPClient.connect
  simp [h]

/-- C7 witness at a fresh client state. -/
theorem mcp_callTool_unavailable_witness :
    MCPClient.callTool ⟨false, toolOkFn⟩ MCPState.init "get_tvl" [] =
      (⟨some (), some (), false⟩, ⟨"", some "MCP server not available"⟩) ∧
    MCPClient.callTool ⟨false, toolOkFn⟩ MCPState.init "get_tvl" [] =
      MCPClient.callTool ⟨false, toolErrFn⟩ MCPState.init "get_tvl" [] :=
  mcp_callTool_unavailable MCPState.init "get_tvl" [] toolOkFn toolErrFn rfl

/-- C8: getMCPClient is a memoised singleton accessor: a second call
returns the same instance as the first and changes nothing; when the cache
is empty the call allocates exactly one instance and caches it; when the
cache holds an instance the call returns it with no new allocation. -/
theorem getMCPClient_singleton (g : MCPGlobal) :
    (getMCPClient (getMCPClient g).1).1 = (getMCPClient g).1 ∧
    (getMCPClient (getMCPClient g).1).2 = (getMCPClient g).2 ∧
    (g.mcpClientInstance = none →
      (getMCPClient g).1.allocated = g.allocated + 1 ∧
      (getMCPClient g).1.mcpClientInstance = some g.allocated) ∧
    (∀ i, g.mcpClientInstance = some i → getMCPClient g = (g, i)) := by
  rcases hg : g.mcpClientInstance with _ | i
  · refine ⟨?_, ?_, fun _ => ⟨?_, ?_⟩, fun i hi => ?_⟩
    · simp [getMCPClient, hg]
    · simp [getMCPClient, hg]
    · simp [getMCPClient, hg]
    · simp [getMCPClient, hg]
    · cases hi
  · refine ⟨?_, ?_, fun hn => ?_, fun j hj => ?_⟩
    · simp [getMCPClient, hg]
    · simp [getMCPClient, hg]
    · cases hn
    · injection hj with hij
      subst hij
      simp [getMCPClient, hg]

/-- C8 witness: from the fresh module state, the first call allocates the
instance and the second call returns the same one unchanged. -/
theorem getMCPClient_singleton_witness :
    (getMCPClient (getMCPClient MCPGlobal.init).1).1 = (getMCPClient MCPGlobal.init).1 ∧
    (getMCPClient MCPGlobal.init).1.allocated = MCPGlobal.init.allocated + 1 ∧
    getMCPClient ⟨some 0, 1⟩ = (⟨some 0, 1⟩, 0) :=
  ⟨(getMCPClient_singleton MCPGlobal.init).1,
   ((getMCPClient_singleton MCPGlobal.init).2.2.1 rfl).1,
   (getMCPClient_singleton ⟨some 0, 1⟩).2.2.2 0 rfl⟩

/-- C9: the connected flag implies a non-null client field, and this
invariant is preserved by connect, callTool and disconnect; connect on an
already connected client returns true immediately with the state unchanged
(no rebuild); and after a successful connect the client field is non-null,
so the uninitialised-client throw branch inside callTool cannot be taken. -/
theorem mcp_connected_invariant (env : MCPEnv) (s : MCPState) (name : String)
    (args : MCPArgs) (h : MCPInv s) :
    MCPInv (MCPClient.connect env s).1 ∧
    MCPInv (MCPClient.callTool env s name args).1 ∧
    MCPInv (MCPClient.disconnect s) ∧
    (s.connected = true → MCPClient.connect env s = (s, true)) ∧
    ((MCPClient.connect env s).2 = true →
      ((MCPClient.connect env s).1).client.isSome = true) := by
  refine ⟨?_, ?_, ?_, ?_, ?_⟩
  · by_cases hc : s.connected
    · simpa [MCPClient.connect, hc] using h
    · by_cases hok : env.connectOk <;> simp [MCPClient.connect, hc, hok, MCPInv]
  · by_cases hc : s.connected
    · simpa [MCPClient.callTool, hc] using h
    · by_cases hok : env.connectOk <;>
        simp [MCPClient.callTool, MCPClient.connect, hc, hok, MCPInv]
  · cases hcl : s.client with
    | none => simpa [MCPClient.disconnect, hcl] using h
    | some u => simp [MCPClient.disconnect, hcl, MCPInv]
  · intro hc
    simp [MCPClient.connect, hc]
  · by_cases hc : s.connected
    · intro hx
      simp only [MCPClient.connect, hc, if_true]
      exact h hc
    · by_cases hok : env.connectOk <;> simp [MCPClient.connect, hc, hok]

/-- C9 witness at a connected state with an allocated client. -/
theorem mcp_connected_invariant_witness :
    MCPInv (MCPClient.connect ⟨true, toolOkFn⟩ mcpConnectedState).1 ∧
    MCPClient.connect ⟨true, toolOkFn⟩ mcpConnectedState = (mcpConnectedState, true) :=
  ⟨(mcp_connected_invariant ⟨true, toolOkFn⟩ mcpConnectedState "get_tvl" []
      (fun _ => rfl)).1,
   (mcp_connected_invariant ⟨true, toolOkFn⟩ mcpConnectedState "get_tvl" []
      (fun _ => rfl)).2.2.2.1 rfl⟩

/-- C10: no result returned by callTool carries both content and an error:
every returned MCPToolResult has either no error set, or empty content
(in particular every error-carrying result has content equal to the empty
string, and every result built from extracted content has no error). -/
theorem mcp_result_exclusive (env : MCPEnv) (s : MCPState) (name : String)
    (args : MCPArgs) :
    (MCPClient.callTool env s name args).2.error = none ∨
    (MCPClient.callTool env s name args).2.content = "" := by
  rcases MCPClient.callTool_cases env s name args with
    ⟨items, _, hr⟩ | hr | hr | ⟨e, _, hr⟩
  · left; rw [hr]
  · right; rw [hr]
  · right; rw [hr]
  · right; rw [hr]

/-- AgentOutput from the agent type declarations: an agent identifier plus
optional result and optional error.  Both fields are optional on the type
itself, exactly as in the source interface. -/
structure AgentOutput (M : Type) where
  id : String
  result : Option M
  error : Option String

/-- The construction performed at the top of DeFiAgent.execute: the output
value is built from the agent identifier alone, with neither the result
field nor the error field set. -/
def AgentOutput.initial (M : Type) (id : String) : AgentOutput M :=
  ⟨id, none, none⟩

/-- A thrown JavaScript error as seen by the catch block of
DeFiAgent.execute: its message together with the classification flags
tested by isAbortedError, isAuthenticationError, isBadRequestError and
isForbiddenError. -/
structure JSError where
  msg : String
  aborted : Bool
  authError : Bool
  badRequest : Bool
  forbidden : Bool
deriving Repr, DecidableEq

/-- The fatal error classes rethrown by DeFiAgent.execute, from
agents/errors. -/
inductive FatalError where
  | requestCancelled (msg : String)
  | chatModelAuth (msg : String)
  | chatModelBadRequest (msg : String)
  | chatModelForbidden (msg : String)
deriving Repr, DecidableEq

/-- Outcome of the awaited work inside the try block of DeFiAgent.execute:
the validated structured model output, a null output from invoke (failed
schema validation), or an error thrown by any awaited step. -/
inductive InvokeOutcome (M : Type) where
  | success (m : M)
  | invalid
  | failure (e : JSError)

/-- The try block of DeFiAgent.execute as an Except computation: a null
model output becomes the thrown validation Error (a plain Error, so all
classification flags are false); any thrown error propagates. -/
def DeFiAgent.tryBody (M : Type) (o : InvokeOutcome M) : Except JSError M :=
  match o with
  | InvokeOutcome.success m => Except.ok m
  | InvokeOutcome.invalid =>
      Except.error ⟨"Failed to validate DeFi analysis output", false, false, false, false⟩
  | InvokeOutcome.failure e => Except.error e

/-- DeFiAgent.execute: build the output from the identifier alone, run the
try block; on success set the result field and return; on a thrown error
rethrow the four classified fatal errors with their fixed messages, and
otherwise set the error field to the thrown message and return the output
non-fatally. -/
def DeFiAgent.execute (M : Type) (id : String) (o : InvokeOutcome M) :
    Except FatalError (AgentOutput M) :=
  match DeFiAgent.tryBody M o with
  | Except.ok m => Except.ok { AgentOutput.initial M id with result := some m }
  | Except.error e =>
    if e.aborted then
      Except.error (FatalError.requestCancelled "DeFi analysis was cancelled")
    else if e.authError then
      Except.error (FatalError.chatModelAuth "Authentication failed for DeFi analysis")
    else if e.badRequest then
      Except.error (FatalError.chatModelBadRequest "Invalid request for DeFi analysis")
    else if e.forbidden then
      Except.error (FatalError.chatModelForbidden "Access forbidden for DeFi analysis")
    else
      Except.ok { AgentOutput.initial M id with error := some e.msg }

/-- Terminal states of a task run. -/
inductive TerminalState where
  | completed
  | failed
  | cancelled
deriving Repr, DecidableEq

/-- Modelled from the spec: the terminal disposition the Executor top-level
handler applies to a fatal error propagated out of an agent invocation
(executor.ts itself is not among the available sources): a
RequestCancelledError moves the task to Cancelled, every chat-model error
moves it to Failed. -/
def executorDisposition : FatalError → TerminalState
  | FatalError.requestCancelled _ => TerminalState.cancelled
  | FatalError.chatModelAuth _ => TerminalState.failed
  | FatalError.chatModelBadRequest _ => TerminalState.failed
  | FatalError.chatModelForbidden _ => TerminalState.failed

/-- Exactly one of the result and error fields is set. -/
def AgentOutput.exclusive {M : Type} (o : AgentOutput M) : Prop :=
  (o.result.isSome = true ∧ o.error = none) ∨
  (o.result = none ∧ o.error.isSome = true)

/-- An AgentOutput value with both fields set, well typed against the
declared output type. -/
def agentOutputBoth : AgentOutput Nat := ⟨"defi", some 1, some "boom"⟩

/-- C2 counterexample: mutual exclusivity of result and error is not
enforced at construction of the AgentOutput value: the value DeFiAgent
constructs at the top of execute has neither field set, and the type also
allows a value with both fields set. -/
theorem agentOutput_not_construction_enforced :
    (AgentOutput.initial Nat "defi").result = none ∧
    (AgentOutput.initial Nat "defi").error = none ∧
    agentOutputBoth.result.isSome = true ∧
    agentOutputBoth.error.isSome = true :=
  ⟨rfl, rfl, rfl, rfl⟩

/-- C2 (amended): every AgentOutput actually returned by DeFiAgent.execute
has exactly one of the result and error fields set; the exclusivity is
maintained by the control flow of execute, each return site setting exactly
one field, rather than being enforced at construction. -/
theorem defi_execute_output_exclusive (M : Type) (id : String)
    (o : InvokeOutcome M) (out : AgentOutput M)
    (h : DeFiAgent.execute M id o = Except.ok out) :
    out.exclusive := by
  cases o with
  | success m =>
    simp only [DeFiAgent.execute, DeFiAgent.tryBody] at h
    cases h
    left; exact ⟨rfl, rfl⟩
  | invalid =>
    simp only [DeFiAgent.execute, DeFiAgent.tryBody, if_neg, Bool.false_eq_true,
      if_false] at h
    cases h
    right; exact ⟨rfl, rfl⟩
  | failure e =>
    simp only [DeFiAgent.execute, DeFiAgent.tryBody] at h
    by_cases h1 : e.aborted <;> simp only [h1, if_true, if_false] at h
    · cases h
    · by_cases h2 : e.authError <;> simp only [h2, if_true, if_false] at h
      · cases h
      · by_cases h3 : e.badRequest <;> simp only [h3, if_true, if_false] at h
        · cases h
        · by_cases h4 : e.forbidden <;> simp only [h4, if_true, if_false] at h
          · cases h
          · cases h
            right; exact ⟨rfl, rfl⟩

/-- C2 witness: the success path at a concrete output value. -/
theorem defi_execute_output_exclusive_witness :
    AgentOutput.exclusive (AgentOutput.mk "defi" (some 7) none) :=
  defi_execute_output_exclusive Nat "defi" (InvokeOutcome.success 7)
    (AgentOutput.mk "defi" (some 7) none) rfl

/-- Concrete classified errors for the witnesses. -/
def errAborted : JSError := ⟨"x", true, false, false, false⟩

/-- Concrete authentication error. -/
def errAuth : JSError := ⟨"x", false, true, false, false⟩

/-- Concrete bad-request error. -/
def errBadRequest : JSError := ⟨"x", false, false, true, false⟩

/-- Concrete forbidden error. -/
def errForbidden : JSError := ⟨"x", false, false, false, true⟩

/-- Concrete unclassified error. -/
def errOther : JSError := ⟨"boom", false, false, false, false⟩

/-- C6: the catch block of DeFiAgent.execute maps the four classified
backend failure modes to the four distinct fatal error kinds, which
propagate to the Executor, whose disposition (modelled from the spec, as
executor.ts is not among the sources) sends cancellation to Cancelled and
the three chat-model errors to Failed; every unclassified error instead
returns non-fatally as the error field of the AgentOutput. -/
theorem defi_execute_error_mapping (M : Type) (id : String) (e : JSError) :
    (e.aborted = true →
      DeFiAgent.execute M id (InvokeOutcome.failure e) =
        Except.error (FatalError.requestCancelled "DeFi analysis was cancelled")) ∧
    (e.aborted = false → e.authError = true →
      DeFiAgent.execute M id (InvokeOutcome.failure e) =
        Except.error (FatalError.chatModelAuth "Authentication failed for DeFi analysis")) ∧
    (e.aborted = false → e.authError = false → e.badRequest = true →
      DeFiAgent.execute M id (InvokeOutcome.failure e) =
        Except.error (FatalError.chatModelBadRequest "Invalid request for DeFi analysis")) ∧
    (e.aborted = false → e.authError = false → e.badRequest = false → e.forbidden = true →
      DeFiAgent.execute M id (InvokeOutcome.failure e) =
        Except.error (FatalError.chatModelForbidden "Access forbidden for DeFi analysis")) ∧
    (e.aborted = false → e.authError = false → e.badRequest = false → e.forbidden = false →
      DeFiAgent.execute M id (InvokeOutcome.failure e) =
        Except.ok (AgentOutput.mk id none (some e.msg))) ∧
    executorDisposition (FatalError.requestCancelled "DeFi analysis was cancelled") =
      TerminalState.cancelled ∧
    executorDisposition (FatalError.chatModelAuth "Authentication failed for DeFi analysis") =
      TerminalState.failed ∧
    executorDisposition (FatalError.chatModelBadRequest "Invalid request for DeFi analysis") =
      TerminalState.failed ∧
    executorDisposition (FatalError.chatModelForbidden "Access forbidden for DeFi analysis") =
      TerminalState.failed := by
  refine ⟨fun h1 => ?_, fun h1 h2 => ?_, fun h1 h2 h3 => ?_, fun h1 h2 h3 h4 => ?_,
    fun h1 h2 h3 h4 => ?_, rfl, rfl, rfl, rfl⟩
  · simp [DeFiAgent.execute, DeFiAgent.tryBody, AgentOutput.initial, h1]
  · simp [DeFiAgent.execute, DeFiAgent.tryBody, AgentOutput.initial, h1, h2]
  · simp [DeFiAgent.execute, DeFiAgent.tryBody, AgentOutput.initial, h1, h2, h3]
  · simp [DeFiAgent.execute, DeFiAgent.tryBody, AgentOutput.initial, h1, h2, h3, h4]
  · simp [DeFiAgent.execute, DeFiAgent.tryBody, AgentOutput.initial, h1, h2, h3, h4]

/-- C6 witness: each classification at a concrete error. -/
theorem defi_execute_error_mapping_witness :
    DeFiAgent.execute Nat "defi" (InvokeOutcome.failure errAborted) =
      Except.error (FatalError.requestCancelled "DeFi analysis was cancelled") ∧
    DeFiAgent.execute Nat "defi" (InvokeOutcome.failure errAuth) =
      Except.error (FatalError.chatModelAuth "Authentication failed for DeFi analysis") ∧
    DeFiAgent.execute Nat "defi" (InvokeOutcome.failure errBadRequest) =
      Except.error (FatalError.chatModelBadRequest "Invalid request for DeFi analysis") ∧
    DeFiAgent.execute Nat "defi" (InvokeOutcome.failure errForbidden) =
      Except.error (FatalError.chatModelForbidden "Access forbidden for DeFi analysis") ∧
    DeFiAgent.execute Nat "defi" (InvokeOutcome.failure errOther) =
      Except.ok (AgentOutput.mk "defi" none (some "boom")) :=
  ⟨(defi_execute_error_mapping Nat "defi" errAborted).1 rfl,
   (defi_execute_error_mapping Nat "defi" errAuth).2.1 rfl rfl,
   (defi_execute_error_mapping Nat "defi" errBadRequest).2.2.1 rfl rfl rfl,
   (defi_execute_error_mapping Nat "defi" errForbidden).2.2.2.1 rfl rfl rfl rfl,
   (defi_execute_error_mapping Nat "defi" errOther).2.2.2.2.1 rfl rfl rfl rfl⟩

/-- Per-step environment of the Executor loop: whether the shouldStop
check observes a stop signal at a given step, whether the Planner run at a
given step reports completion (the checkTaskCompletion test), and whether
the Navigator run at a given step signals done. -/
structure ExecEnv where
  shouldStop : Nat → Bool
  plannerDoneAt : Nat → Bool
  navDoneAt : Nat → Bool

/-- Record of one executed loop iteration: the step counter, whether the
Planner ran and whether it reported completion, and whether the Navigator
ran and what its done flag was. -/
structure StepRecord where
  step : Nat
  ranPlanner : Bool
  plannerDone : Bool
  ranNavigator : Bool
  navDone : Bool
deriving Repr, DecidableEq

/-- Modelled from the spec: how the loop exit is reported (executor.ts is
not among the sources; the guide shows only the break statements): a
Planner-validated completion exits as Completed with TASK_OK, a stop signal
exits as Cancelled, and exhausting maxSteps without a terminal state is the
reported StepBudgetExceeded failure. -/
inductive ExecOutcome where
  | completed (step : Nat)
  | cancelled (step : Nat)
  | stepBudgetExceeded
deriving Repr, DecidableEq

/-- The planning-gate modulo test with JavaScript semantics: for a zero
planningInterval the expression step % 0 is NaN, which compares unequal to
0, so the test is false; otherwise it is the ordinary remainder test. -/
def planCheck (step interval : Nat) : Bool :=
  interval != 0 && step % interval == 0

/-- The Executor step loop from the guide, one recursive call per
iteration: check shouldStop, then run the Planner when the gate
(step modulo planningInterval equals 0, or the prior Navigator step
signalled done) holds, breaking on a validated completion, then run the
Navigator and carry its done flag to the next iteration.  The fuel
argument counts the remaining iterations of the for loop. -/
def execLoop (env : ExecEnv) (interval : Nat) (step : Nat) (navDone : Bool)
    (fuel : Nat) : List StepRecord × ExecOutcome :=
  match fuel with
  | 0 => ([], ExecOutcome.stepBudgetExceeded)
  | Nat.succ fuel1 =>
    if env.shouldStop step then ([], ExecOutcome.cancelled step)
    else if planCheck step interval || navDone then
      if env.plannerDoneAt step then
        ([⟨step, true, true, false, false⟩], ExecOutcome.completed step)
      else
        (⟨step, true, false, true, env.navDoneAt step⟩ ::
            (execLoop env interval (step + 1) (env.navDoneAt step) fuel1).1,
          (execLoop env interval (step + 1) (env.navDoneAt step) fuel1).2)
    else
      (⟨step, false, false, true, env.navDoneAt step⟩ ::
          (execLoop env interval (step + 1) (env.navDoneAt step) fuel1).1,
        (execLoop env interval (step + 1) (env.navDoneAt step) fuel1).2)

/-- Executor.execute: the step loop starts at step 0 with no prior
Navigator completion and runs for at most maxSteps iterations. -/
def Executor.execute (env : ExecEnv) (interval maxSteps : Nat) :
    List StepRecord × ExecOutcome :=
  execLoop env interval 0 false maxSteps

/-- The planning-gate discipline over a trace of iteration records, given
the done flag carried in from the step before the trace: each record runs
the Planner exactly when the gate holds, every Planner-skipping iteration
runs the Navigator, and the carried flag is updated to the navDone of the
record. -/
def gateOk (interval : Nat) : List StepRecord → Bool → Prop
  | [], _ => True
  | r :: rest, prevNav =>
    r.ranPlanner = (planCheck r.step interval || prevNav) ∧
    (r.ranPlanner = false → r.ranNavigator = true) ∧
    gateOk interval rest r.navDone

/-- Auxiliary: with no stop signal and a Planner that never reports done,
the loop consumes all its fuel, producing one Navigator-running record per
unit of fuel and the StepBudgetExceeded outcome. -/
theorem execLoop_budget (env : ExecEnv) (interval : Nat)
    (hstop : ∀ i, env.shouldStop i = false)
    (hp : ∀ i, env.plannerDoneAt i = false) :
    ∀ fuel step nd,
      (execLoop env interval step nd fuel).2 = ExecOutcome.stepBudgetExceeded ∧
      (execLoop env interval step nd fuel).1.length = fuel ∧
      ∀ r ∈ (execLoop env interval step nd fuel).1, r.ranNavigator = true := by
  intro fuel
  induction fuel with
  | zero =>
    intro step nd
    exact ⟨rfl, rfl, fun r hr => absurd hr (List.not_mem_nil r)⟩
  | succ n ih =>
    intro step nd
    obtain ⟨h1, h2, h3⟩ := ih (step + 1) (env.navDoneAt step)
    by_cases hg : (planCheck step interval || nd) = true
    · simp only [execLoop, hstop step, hp step, hg, if_true, if_false,
        Bool.false_eq_true]
      refine ⟨h1, by simp [h2], fun r hr => ?_⟩
      rcases List.mem_cons.mp hr with hr | hr
      · rw [hr]
      · exact h3 r hr
    · simp only [execLoop, hstop step, hp step, hg, if_true, if_false,
        Bool.false_eq_true]
      refine ⟨h1, by simp [h2], fun r hr => ?_⟩
      rcases List.mem_cons.mp hr with hr | hr
      · rw [hr]
      · exact h3 r hr

/-- C3: for every maxSteps, a run in which the Planner never reports done
and no stop signal arrives terminates after exactly maxSteps iterations,
each of which runs the Navigator, and exits with the reported
StepBudgetExceeded failure rather than looping forever. -/
theorem executor_step_budget (env : ExecEnv) (interval maxSteps : Nat)
    (hstop : ∀ i, env.shouldStop i = false)
    (hp : ∀ i, env.plannerDoneAt i = false) :
    (Executor.execute env interval maxSteps).2 = ExecOutcome.stepBudgetExceeded ∧
    (Executor.execute env interval maxSteps).1.length = maxSteps ∧
    ∀ r ∈ (Executor.execute env interval maxSteps).1, r.ranNavigator = true :=
  execLoop_budget env interval hstop hp maxSteps 0 false

/-- Environment with no stop signal, no planner completion, no navigator
completion. -/
def quietEnv : ExecEnv := ⟨fun _ => false, fun _ => false, fun _ => false⟩

/-- C3 witness: three steps with planning interval five. -/
theorem executor_step_budget_witness :
    (Executor.execute quietEnv 5 3).2 = ExecOutcome.stepBudgetExceeded ∧
    (Executor.execute quietEnv 5 3).1.length = 3 ∧
    ∀ r ∈ (Executor.execute quietEnv 5 3).1, r.ranNavigator = true :=
  executor_step_budget quietEnv 5 3 (fun _ => rfl) (fun _ => rfl)

/-- Auxiliary: every trace the loop produces respects the planning-gate
discipline relative to the carried navigator-done flag. -/
theorem execLoop_gate (env : ExecEnv) (interval : Nat) :
    ∀ fuel step nd, gateOk interval (execLoop env interval step nd fuel).1 nd := by
  intro fuel
  induction fuel with
  | zero =>
    intro step nd
    exact trivial
  | succ n ih =>
    intro step nd
    by_cases hs : env.shouldStop step = true
    · simp only [execLoop, hs, if_true]
      exact trivial
    · by_cases hg : (planCheck step interval || nd) = true
      · by_cases hp : env.plannerDoneAt step = true
        · simp only [execLoop, hs, hg, hp, if_true, if_false, Bool.false_eq_true]
          exact ⟨hg.symm, fun h => Bool.noConfusion h, trivial⟩
        · simp only [execLoop, hs, hg, hp, if_true, if_false, Bool.false_eq_true]
          exact ⟨hg.symm, fun h => Bool.noConfusion h, ih (step + 1) (env.navDoneAt step)⟩
      · simp only [execLoop, hs, hg, if_true, if_false, Bool.false_eq_true]
        exact ⟨(Bool.not_eq_true _).mp hg ▸ rfl, fun _ => rfl,
          ih (step + 1) (env.navDoneAt step)⟩

/-- C4: in every iteration of the Executor loop the Planner runs exactly
when step modulo planningInterval equals 0 or the prior Navigator step
signalled completion, and in every other iteration the Planner is skipped
and the Navigator runs. -/
theorem executor_planning_gate (env : ExecEnv) (interval maxSteps : Nat) :
    gateOk interval (Executor.execute env interval maxSteps).1 false :=
  execLoop_gate env interval maxSteps 0 false

/-- C4 witness at a concrete run. -/
theorem executor_planning_gate_witness :
    gateOk 5 (Executor.execute quietEnv 5 3).1 false :=
  executor_planning_gate quietEnv 5 3

/-- Auxiliary: a completed outcome can only arise from an iteration whose
Planner run reported done, recorded with the Navigator not running in that
iteration. -/
theorem execLoop_completed (env : ExecEnv) (interval : Nat) :
    ∀ fuel step nd s,
      (execLoop env interval step nd fuel).2 = ExecOutcome.completed s →
      env.plannerDoneAt s = true ∧
      StepRecord.mk s true true false false ∈ (execLoop env interval step nd fuel).1 := by
  intro fuel
  induction fuel with
  | zero =>
    intro step nd s h
    cases h
  | succ n ih =>
    intro step nd s h
    by_cases hs : env.shouldStop step = true
    · simp only [execLoop, hs, if_true] at h
      cases h
    · by_cases hg : (planCheck step interval || nd) = true
      · by_cases hp : env.plannerDoneAt step = true
        · simp only [execLoop, hs, hg, hp, if_true, if_false, Bool.false_eq_true] at h ⊢
          cases h
          exact ⟨hp, List.mem_singleton.mpr rfl⟩
        · simp only [execLoop, hs, hg, hp, if_true, if_false, Bool.false_eq_true] at h ⊢
          obtain ⟨h1, h2⟩ := ih (step + 1) (env.navDoneAt step) s h
          exact ⟨h1, List.mem_cons_of_mem _ h2⟩
      · simp only [execLoop, hs, hg, if_true, if_false, Bool.false_eq_true] at h ⊢
        obtain ⟨h1, h2⟩ := ih (step + 1) (env.navDoneAt step) s h
        exact ⟨h1, List.mem_cons_of_mem _ h2⟩

/-- C5: the loop exits as Completed at step s only when the Planner run at
step s reported done, and the iteration that completed the task ran the
Planner and not the Navigator — a Navigator done flag alone never
completes the task, and at a step where both could fire the Planner is
authoritative. -/
theorem executor_success_only_planner (env : ExecEnv) (interval maxSteps s : Nat)
    (h : (Executor.execute env interval maxSteps).2 = ExecOutcome.completed s) :
    env.plannerDoneAt s = true ∧
    StepRecord.mk s true true false false ∈ (Executor.execute env interval maxSteps).1 :=
  execLoop_completed env interval maxSteps 0 false s h

/-- Environment in which the Planner reports done at once while the
Navigator would also signal done. -/
def doneEnv : ExecEnv := ⟨fun _ => false, fun _ => true, fun _ => true⟩

/-- C5 witness: a run that completes at step 0 via the Planner. -/
theorem executor_success_only_planner_witness :
    doneEnv.plannerDoneAt 0 = true ∧
    StepRecord.mk 0 true true false false ∈ (Executor.execute doneEnv 5 3).1 :=
  executor_success_only_planner doneEnv 5 3 0 rfl
